import Mathlib

/-!
Verification development for the jd-sql spec runner
(src/tools/jd-sql-spec-runner/src/main.rs).

The runner reads two input files, binds them as parameters of a configured
SQL query, classifies the first column of the first result row, and maps the
classified outcome to stdout bytes and a process exit code.

The embedding below translates the Rust source into Lean. External
collaborators (filesystem, the postgres client, the serde_json parser) are
modelled as oracle inputs collected in a `PgEnv` structure; the pure logic
of the source (document loading policy, engine dispatch, result
classification, the diff-signal mapper, and the JSON presence predicate) is
translated function by function.
-/

namespace JdSql

/-- Model of serde_json::Number. The Rust type is a three-way union:
a `u64` (PosInt), a strictly negative `i64` (NegInt), or an `f64` (Float).
`negInt m` represents the negative integer -(m+1), matching the source
invariant that NegInt values are always strictly negative. A float payload
is carried as its decimal rendering (a string), since none of the source
logic inspects the float value itself: `as_i64` returns None for every
Float, and serialization prints the rendering. -/
inductive JNumber where
  | posInt (n : Nat)
  | negInt (m : Nat)
  | float (r : String)
deriving DecidableEq

/-- The largest value of the Rust type i64: 2^63 - 1. -/
def i64MaxNat : Nat := 9223372036854775807

/-- Model of serde_json Number::as_i64: a PosInt converts when it fits in
i64, a NegInt always converts, a Float never converts (even when the float
happens to be integral). -/
def as_i64 : JNumber → Option Int
  | .posInt n => if n ≤ i64MaxNat then some (Int.ofNat n) else none
  | .negInt m => some (Int.negSucc m)
  | .float _ => none

mutual
/-- Model of serde_json::Value. Arrays and objects use the mutually
defined list types below so that all recursion over values is structural. -/
inductive Json where
  | null : Json
  | bool : Bool → Json
  | num : JNumber → Json
  | str : String → Json
  | arr : JsonArr → Json
  | obj : JsonObj → Json

/-- A list of JSON values (array elements). -/
inductive JsonArr where
  | nil : JsonArr
  | cons : Json → JsonArr → JsonArr

/-- A list of key/value members (object entries, in insertion order). -/
inductive JsonObj where
  | nil : JsonObj
  | cons : String → Json → JsonObj → JsonObj
end

/-- Whether an array has no elements (Vec::is_empty on the array case). -/
def JsonArr.isEmpty : JsonArr → Bool
  | .nil => true
  | .cons _ _ => false

/-- Whether an object has no members (Map::is_empty on the object case). -/
def JsonObj.isEmpty : JsonObj → Bool
  | .nil => true
  | .cons _ _ _ => false

/-- Translation of json_diff_present (main.rs lines 220-228): the JSON
presence predicate deciding whether a Json outcome counts as a diff.
Null is never a diff; a boolean is a diff when true; a number is a diff
when as_i64 succeeds with a nonzero value (unwrap_or(0) maps a failed
conversion to 0); strings, arrays and objects are a diff when non-empty.
Only the outermost value is inspected. -/
def json_diff_present : Json → Bool
  | .null => false
  | .bool b => b
  | .num n => ((as_i64 n).getD 0) != 0
  | .str s => !s.isEmpty
  | .arr a => !a.isEmpty
  | .obj o => !o.isEmpty

/-- Escape of one character inside a JSON string, following the serde_json
compact serializer: quote and backslash are escaped, the five short control
escapes are used where available, all other control characters below 0x20
use a four-digit lowercase hex escape, and everything else is emitted
verbatim. -/
def escapeChar (c : Char) : String :=
  if c = '"' then "\\\""
  else if c = '\\' then "\\\\"
  else if c = '\x08' then "\\b"
  else if c = '\x09' then "\\t"
  else if c = '\x0a' then "\\n"
  else if c = '\x0c' then "\\f"
  else if c = '\x0d' then "\\r"
  else if c.toNat < 0x20 then
    "\\u00" ++ String.singleton (Nat.digitChar (c.toNat / 16))
      ++ String.singleton (Nat.digitChar (c.toNat % 16))
  else String.singleton c

/-- Escape of a whole string body, character by character. -/
def escapeList : List Char → String
  | [] => ""
  | c :: cs => escapeChar c ++ escapeList cs

/-- Serialization of a JSON number: PosInt and NegInt print in decimal,
a Float prints its carried rendering. -/
def numToString : JNumber → String
  | .posInt n => toString n
  | .negInt m => toString (Int.negSucc m)
  | .float r => r

mutual
/-- Model of serde_json::to_string (compact serialization, no extra
whitespace): null/true/false keywords, decimal numbers, quoted escaped
strings, comma-separated bracketed arrays, and comma-separated braced
objects with a colon between each quoted key and its value. -/
def jsonToString : Json → String
  | .null => "null"
  | .bool true => "true"
  | .bool false => "false"
  | .num n => numToString n
  | .str s => "\"" ++ escapeList s.data ++ "\""
  | .arr a => "[" ++ arrBody a ++ "]"
  | .obj o => "\x7b" ++ objBody o ++ "\x7d"

/-- Comma-separated serialization of array elements. -/
def arrBody : JsonArr → String
  | .nil => ""
  | .cons x .nil => jsonToString x
  | .cons x (.cons y t) => jsonToString x ++ "," ++ arrBody (.cons y t)

/-- Comma-separated serialization of object members, each a quoted escaped
key, a colon, and the serialized value. -/
def objBody : JsonObj → String
  | .nil => ""
  | .cons k v .nil => "\"" ++ escapeList k.data ++ "\":" ++ jsonToString v
  | .cons k v (.cons k2 v2 t) =>
      "\"" ++ escapeList k.data ++ "\":" ++ jsonToString v
        ++ "," ++ objBody (.cons k2 v2 t)
end

/-- The Unicode White_Space property, the character class the Rust
char::is_whitespace method tests (and hence what str::trim strips). -/
def rustIsWhitespace (c : Char) : Bool :=
  (0x09 ≤ c.toNat && c.toNat ≤ 0x0d) || c.toNat = 0x20 || c.toNat = 0x85 ||
  c.toNat = 0xa0 || c.toNat = 0x1680 || (0x2000 ≤ c.toNat && c.toNat ≤ 0x200a) ||
  c.toNat = 0x2028 || c.toNat = 0x2029 || c.toNat = 0x202f || c.toNat = 0x205f ||
  c.toNat = 0x3000

/-- Model of the Rust expression s.trim().is_empty(): the trimmed string is
empty exactly when every character of s is whitespace. -/
def trimmedIsEmpty (s : String) : Bool := s.data.all rustIsWhitespace

/-- Translation of enum QueryResult (main.rs lines 122-126): the classified
outcome of the query. -/
inductive QueryResult where
  | Text : String → QueryResult
  | Json : Json → QueryResult
  | None : QueryResult

/-- Translation of struct Config (main.rs lines 8-18). -/
structure Config where
  engine : String
  dsn : String
  sql : String

/-- The fatal error kinds a run can end with. Each constructor carries the
strings interpolated into the message the source attaches via anyhow. -/
inductive RunError where
  | UnsupportedEngine : String → RunError
  | InputIOError : String → String → RunError
  | InputParseError : String → RunError
  | ConnectionError : String → RunError
  | StatementPrepareError : RunError
  | QueryExecutionError : RunError
  | UnsupportedResultType : RunError
  | ConfigReadError : String → RunError
  | ConfigParseError : String → RunError
  | ConfigNotFound : RunError
  | ArgMissing : String → RunError

/-- The human-readable message the source prints on the error stream for
each fatal error kind (the Display text of the outermost anyhow context). -/
def errMessage : RunError → String
  | .UnsupportedEngine e => "unsupported engine \x27" ++ e ++ "\x27 (supported: postgres)"
  | .InputIOError label path => "failed to read input file " ++ label ++ ": " ++ path
  | .InputParseError path => "invalid JSON in " ++ path
  | .ConnectionError dsn => "failed to connect to postgres: " ++ dsn
  | .StatementPrepareError => "prepare SQL failed"
  | .QueryExecutionError => "SQL execution failed"
  | .UnsupportedResultType => "unsupported result type in first column; expected text or json"
  | .ConfigReadError path => "failed to read config file: " ++ path
  | .ConfigParseError path => "failed to parse YAML config: " ++ path
  | .ConfigNotFound => "config file not found. Provide -c <file> or place jd-sql-spec.yaml in the current directory or next to the executable"
  | .ArgMissing which => "missing " ++ which ++ " input file argument"

/-- Translation of the document-loading policy of run_postgres
(main.rs lines 135-152): content that trims to empty becomes None (void,
bound as SQL NULL); otherwise the content must parse as JSON or the run
fails with an invalid-JSON error naming the file. The JSON parser is an
oracle parameter, since serde_json is an external collaborator. -/
def loadDocument (parse : String → Option Json) (path : String) (content : String) :
    Except RunError (Option Json) :=
  if trimmedIsEmpty content then Except.ok none
  else
    match parse content with
    | some v => Except.ok (some v)
    | none => Except.error (RunError.InputParseError path)

/-- The first column of one result row, as seen through the two typed
accessors the source tries: try_get as a String and try_get as a JSON
value. Each accessor either succeeds with a value or fails. -/
structure Cell where
  asString : Option String
  asJson : Option Json

/-- Translation of the result-classification tail of run_postgres
(main.rs lines 176-190): zero rows classify as None (empty); otherwise the
first row is probed as text first, then as JSON, and a row readable as
neither is an unsupported-result-type error. -/
def classify : List Cell → Except RunError QueryResult
  | [] => Except.ok QueryResult.None
  | c :: _ =>
    match c.asString with
    | some s => Except.ok (QueryResult.Text s)
    | none =>
      match c.asJson with
      | some v => Except.ok (QueryResult.Json v)
      | none => Except.error RunError.UnsupportedResultType

/-- Events observable at the database boundary, in the order the source
performs them: one connect, one prepare, one query with the two bound
parameters (None binds as SQL NULL). -/
inductive DbEvent where
  | connect : String → DbEvent
  | prepare : String → DbEvent
  | query : Option Json → Option Json → DbEvent

/-- Oracle answers of the external collaborators consulted by run_postgres:
the two file reads (none models an IO failure), the JSON parser, the
connect and prepare outcomes, and the query outcome (the list of first
columns of the returned rows, or none for an execution failure). -/
structure PgEnv where
  readA : Option String
  readB : Option String
  parse : String → Option Json
  connectOk : Bool
  prepareOk : Bool
  queryRes : Option (List Cell)

/-- Translation of run_postgres (main.rs lines 128-191): read both input
files, apply the loading policy to each, connect, prepare, execute with the
two loaded parameters bound in order, and classify the rows. The second
component records the database events that were actually attempted. -/
def run_postgres (cfg : Config) (file1 file2 : String) (env : PgEnv) :
    Except RunError QueryResult × List DbEvent :=
  match env.readA with
  | none => (Except.error (RunError.InputIOError "A" file1), [])
  | some aText =>
    match env.readB with
    | none => (Except.error (RunError.InputIOError "B" file2), [])
    | some bText =>
      match loadDocument env.parse file1 aText with
      | Except.error e => (Except.error e, [])
      | Except.ok aParam =>
        match loadDocument env.parse file2 bText with
        | Except.error e => (Except.error e, [])
        | Except.ok bParam =>
          if !env.connectOk then
            (Except.error (RunError.ConnectionError cfg.dsn), [DbEvent.connect cfg.dsn])
          else if !env.prepareOk then
            (Except.error RunError.StatementPrepareError,
             [DbEvent.connect cfg.dsn, DbEvent.prepare cfg.sql])
          else
            match env.queryRes with
            | none =>
              (Except.error RunError.QueryExecutionError,
               [DbEvent.connect cfg.dsn, DbEvent.prepare cfg.sql,
                DbEvent.query aParam bParam])
            | some rows =>
              (classify rows,
               [DbEvent.connect cfg.dsn, DbEvent.prepare cfg.sql,
                DbEvent.query aParam bParam])

/-- Translation of the diff-signal mapper in run (main.rs lines 77-96):
None prints nothing and exits 0; Text prints the string verbatim (no
forced trailing newline) and exits 1 exactly when the trimmed string is
non-empty; Json prints the compact serialization and exits with the
presence predicate cast to an integer. The first component is the exact
stdout bytes, the second the exit code. -/
def mapResult : QueryResult → String × Int
  | QueryResult.None => ("", 0)
  | QueryResult.Text s => (s, if trimmedIsEmpty s then 0 else 1)
  | QueryResult.Json v => (jsonToString v, if json_diff_present v then 1 else 0)

/-- Translation of the engine dispatch and result mapping of run
(main.rs lines 65-99): exactly the engine strings postgres and pg select
the postgres path; any other engine string fails as unsupported before any
database event; a successful postgres outcome goes through the mapper. -/
def run (cfg : Config) (file1 file2 : String) (env : PgEnv) :
    Except RunError (String × Int) × List DbEvent :=
  if cfg.engine = "postgres" ∨ cfg.engine = "pg" then
    match run_postgres cfg file1 file2 env with
    | (Except.error e, evs) => (Except.error e, evs)
    | (Except.ok result, evs) => (Except.ok (mapResult result), evs)
  else
    (Except.error (RunError.UnsupportedEngine cfg.engine), [])

/-- A whole run including the config-loading stage, whose possible failures
(main.rs lines 56-63 and resolve_config_path) are modelled by an Except
input. -/
def runFull (cfgLoad : Except RunError Config) (file1 file2 : String) (env : PgEnv) :
    Except RunError (String × Int) × List DbEvent :=
  match cfgLoad with
  | Except.error e => (Except.error e, [])
  | Except.ok cfg => run cfg file1 file2 env

/-- Translation of main (main.rs lines 40-50): a successful run exits with
the code the mapper computed; a failed run exits 2. -/
def mainExit (cfgLoad : Except RunError Config) (file1 file2 : String) (env : PgEnv) : Int :=
  match (runFull cfgLoad file1 file2 env).1 with
  | Except.ok r => r.2
  | Except.error _ => 2

/-- The bytes main writes to stdout: the mapper output on success, nothing
on a fatal error (errors go to the error stream). -/
def mainStdout (cfgLoad : Except RunError Config) (file1 file2 : String) (env : PgEnv) : String :=
  match (runFull cfgLoad file1 file2 env).1 with
  | Except.ok r => r.1
  | Except.error _ => ""

/-- The bytes main writes to the error stream: the human-readable message
of the fatal error, or nothing on success (main.rs line 45). -/
def mainStderr (cfgLoad : Except RunError Config) (file1 file2 : String) (env : PgEnv) : String :=
  match (runFull cfgLoad file1 file2 env).1 with
  | Except.ok _ => ""
  | Except.error e => errMessage e


/-! ## Theorems -/

/-- The diff-signal mapper only ever produces exit code 0 or 1. -/
theorem mapResult_exit_zero_or_one (q : QueryResult) :
    (mapResult q).2 = 0 ∨ (mapResult q).2 = 1 := by
  cases q with
  | None => left; rfl
  | Text s => simp only [mapResult]; split <;> simp
  | Json v => simp only [mapResult]; split <;> simp

/-- C1 counterexample: the claim predicts exit code 1 for every non-integer
JSON number, but on the non-integer number 0.5 the code computes
as_i64 = None, unwrap_or(0) = 0, hence no diff and exit code 0. -/
theorem c1_counterexample_nonint_number_exits_zero :
    (mapResult (QueryResult.Json (Json.num (JNumber.float "0.5")))).2 = 0 ∧
    (mapResult (QueryResult.Json (Json.num (JNumber.float "0.5")))).2 ≠ 1 :=
  ⟨rfl, by decide⟩

/-- C1 amended: for a Json outcome carrying a number n, the exit code is 0
exactly when n has no i64 representation or its i64 value is zero, and 1
exactly when n is i64-representable with a nonzero value; in particular
non-integer numbers and out-of-range unsigned integers exit 0, not 1. -/
theorem c1_amended_json_number_exit (n : JNumber) :
    ((mapResult (QueryResult.Json (Json.num n))).2 = 0 ↔
      (as_i64 n = none ∨ as_i64 n = some 0)) ∧
    ((mapResult (QueryResult.Json (Json.num n))).2 = 1 ↔
      (∃ k, as_i64 n = some k ∧ k ≠ 0)) := by
  rcases h : as_i64 n with _ | k
  · simp [mapResult, json_diff_present, h]
  · by_cases hk : k = 0
    · subst hk; simp [mapResult, json_diff_present, h]
    · constructor
      · simp [mapResult, json_diff_present, h, hk]
      · simp [mapResult, json_diff_present, h, hk]

/-- C2: for a Text outcome the stdout bytes are exactly the string (no
appended newline) and the exit code is 1 exactly when the trimmed string
is non-empty, 0 exactly when the string is whitespace-only. -/
theorem c2_text_outcome (s : String) :
    (mapResult (QueryResult.Text s)).1 = s ∧
    ((mapResult (QueryResult.Text s)).2 = 1 ↔ trimmedIsEmpty s = false) ∧
    ((mapResult (QueryResult.Text s)).2 = 0 ↔ trimmedIsEmpty s = true) := by
  refine ⟨rfl, ?_, ?_⟩ <;>
    · simp only [mapResult]
      by_cases h : trimmedIsEmpty s = true <;> simp [h]

/-- C3: for a Json outcome the stdout bytes are the compact serialization
of the value, the eight concrete values of the spec table exit as stated,
and in general null exits 0, a boolean exits 1 exactly when true, and a
string, array or object exits 1 exactly when non-empty, judged only at the
outermost value. -/
theorem c3_json_outcome :
    (∀ v, (mapResult (QueryResult.Json v)).1 = jsonToString v) ∧
    (mapResult (QueryResult.Json (Json.obj JsonObj.nil))).2 = 0 ∧
    (mapResult (QueryResult.Json (Json.arr JsonArr.nil))).2 = 0 ∧
    (mapResult (QueryResult.Json (Json.str ""))).2 = 0 ∧
    (mapResult (QueryResult.Json Json.null)).2 = 0 ∧
    (mapResult (QueryResult.Json
      (Json.obj (JsonObj.cons "a" (Json.num (JNumber.posInt 1)) JsonObj.nil)))).2 = 1 ∧
    (mapResult (QueryResult.Json
      (Json.arr (JsonArr.cons (Json.num (JNumber.posInt 1)) JsonArr.nil)))).2 = 1 ∧
    (mapResult (QueryResult.Json (Json.str "x"))).2 = 1 ∧
    (mapResult (QueryResult.Json (Json.bool true))).2 = 1 ∧
    (∀ b, ((mapResult (QueryResult.Json (Json.bool b))).2 = 1 ↔ b = true)) ∧
    (∀ s, ((mapResult (QueryResult.Json (Json.str s))).2 = 1 ↔ s.isEmpty = false)) ∧
    (∀ a, ((mapResult (QueryResult.Json (Json.arr a))).2 = 1 ↔ a.isEmpty = false)) ∧
    (∀ o, ((mapResult (QueryResult.Json (Json.obj o))).2 = 1 ↔ o.isEmpty = false)) ∧
    jsonToString
      (Json.obj (JsonObj.cons "a" (Json.num (JNumber.posInt 1)) JsonObj.nil)) =
      "\x7b\"a\":1\x7d" := by
  refine ⟨fun v => rfl, rfl, rfl, by decide, rfl, by decide, by decide, by decide, rfl,
    ?_, ?_, ?_, ?_, by decide⟩
  · intro b; cases b <;> simp [mapResult, json_diff_present]
  · intro s; by_cases h : s.isEmpty <;> simp [mapResult, json_diff_present, h]
  · intro a; cases a <;> simp [mapResult, json_diff_present, JsonArr.isEmpty]
  · intro o; cases o <;> simp [mapResult, json_diff_present, JsonObj.isEmpty]

/-- C10: whenever as_i64 fails — which is the case for every Float (all
non-integer JSON numbers parse as floats) and for every unsigned integer
above i64::MAX — json_diff_present is false and a Json outcome carrying
that number exits 0. -/
theorem c10_non_i64_number_no_diff :
    (∀ n, as_i64 n = none →
      json_diff_present (Json.num n) = false ∧
      (mapResult (QueryResult.Json (Json.num n))).2 = 0) ∧
    (∀ r, as_i64 (JNumber.float r) = none) ∧
    (∀ m, i64MaxNat < m → as_i64 (JNumber.posInt m) = none) := by
  refine ⟨fun n h => ?_, fun r => rfl, fun m h => ?_⟩
  · constructor <;> simp [mapResult, json_diff_present, h]
  · simp [as_i64, Nat.not_le.mpr h]

/-- Witness for C10: the float 1.5 and the unsigned integer 2^63 are
concrete numbers with no i64 representation; both yield no diff. -/
theorem c10_witness :
    json_diff_present (Json.num (JNumber.float "1.5")) = false ∧
    (mapResult (QueryResult.Json (Json.num (JNumber.float "1.5")))).2 = 0 ∧
    as_i64 (JNumber.posInt 9223372036854775808) = none :=
  ⟨(c10_non_i64_number_no_diff.1 (JNumber.float "1.5") rfl).1,
   (c10_non_i64_number_no_diff.1 (JNumber.float "1.5") rfl).2,
   c10_non_i64_number_no_diff.2.2 9223372036854775808 (by decide)⟩

/-- C4: the classifier applies its policy in strict order: zero rows yield
the empty outcome; otherwise the first column of the first row is probed as
a string first (success yields Text even when a JSON reading would also
succeed), then as a JSON value, and if both probes fail the result is the
unsupported-result-type fatal error. -/
theorem c4_classifier_order :
    (classify [] = Except.ok QueryResult.None) ∧
    (∀ c rest s, c.asString = some s →
      classify (c :: rest) = Except.ok (QueryResult.Text s)) ∧
    (∀ c rest v, c.asString = none → c.asJson = some v →
      classify (c :: rest) = Except.ok (QueryResult.Json v)) ∧
    (∀ c rest, c.asString = none → c.asJson = none →
      classify (c :: rest) = Except.error RunError.UnsupportedResultType) := by
  refine ⟨rfl, fun c rest s hs => ?_, fun c rest v hs hj => ?_, fun c rest hs hj => ?_⟩ <;>
    simp [classify, hs]
  · simp [hj]
  · simp [hj]

/-- Witness for C4: a cell readable both as the string d and as JSON is
classified Text d (string wins); a cell readable only as JSON null is
classified Json null; a cell readable as neither is the fatal error. -/
theorem c4_witness :
    classify [Cell.mk (some "d") (some Json.null)] = Except.ok (QueryResult.Text "d") ∧
    classify [Cell.mk none (some Json.null)] = Except.ok (QueryResult.Json Json.null) ∧
    classify [Cell.mk none none] = Except.error RunError.UnsupportedResultType :=
  ⟨c4_classifier_order.2.1 (Cell.mk (some "d") (some Json.null)) [] "d" rfl,
   c4_classifier_order.2.2.1 (Cell.mk none (some Json.null)) [] Json.null rfl rfl,
   c4_classifier_order.2.2.2 (Cell.mk none none) [] rfl rfl⟩

/-- C5: the document loader yields void (None, bound as SQL NULL) for
content that is empty or entirely whitespace, yields the parsed value for
content the JSON parser accepts, and fails with the invalid-JSON parse
error otherwise; a parse failure on a readable input terminates the whole
run with exit status 2; and when both inputs are whitespace-only the query
event binds NULL for both parameters. -/
theorem c5_document_loader :
    (∀ p path content, trimmedIsEmpty content = true →
      loadDocument p path content = Except.ok none) ∧
    (∀ p path content v, trimmedIsEmpty content = false → p content = some v →
      loadDocument p path content = Except.ok (some v)) ∧
    (∀ p path content, trimmedIsEmpty content = false → p content = none →
      loadDocument p path content = Except.error (RunError.InputParseError path)) ∧
    (∀ cfg f1 f2 env a,
      (cfg.engine = "postgres" ∨ cfg.engine = "pg") →
      env.readA = some a → trimmedIsEmpty a = false → env.parse a = none →
      mainExit (Except.ok cfg) f1 f2 env = 2) ∧
    (∀ cfg f1 f2 env a b rows,
      env.readA = some a → env.readB = some b →
      trimmedIsEmpty a = true → trimmedIsEmpty b = true →
      env.connectOk = true → env.prepareOk = true → env.queryRes = some rows →
      (run_postgres cfg f1 f2 env).2 =
        [DbEvent.connect cfg.dsn, DbEvent.prepare cfg.sql, DbEvent.query none none]) := by
  refine ⟨fun p path content h => ?_, fun p path content v h hp => ?_,
    fun p path content h hp => ?_, fun cfg f1 f2 env a heng ha ht hp => ?_,
    fun cfg f1 f2 env a b rows ha hb hta htb hc hpr hq => ?_⟩
  · simp [loadDocument, h]
  · simp [loadDocument, h, hp]
  · simp [loadDocument, h, hp]
  · unfold mainExit runFull run run_postgres
    rcases hrb : env.readB with _ | bText <;>
      simp [heng, ha, hrb, loadDocument, ht, hp]
  · unfold run_postgres
    simp [ha, hb, loadDocument, hta, htb, hc, hpr, hq]

/-- Witness for C5: concrete loader runs for the three policy branches, a
concrete failing run exiting 2, and a concrete whitespace-only run binding
NULL twice. -/
theorem c5_witness :
    loadDocument (fun _ => some Json.null) "f" " \n\t" = Except.ok none ∧
    loadDocument (fun _ => some Json.null) "f" "null" = Except.ok (some Json.null) ∧
    loadDocument (fun _ => none) "f" "oops" = Except.error (RunError.InputParseError "f") ∧
    mainExit (Except.ok (Config.mk "postgres" "d" "q")) "f1" "f2"
      (PgEnv.mk (some "oops") (some "") (fun _ => none) true true (some [])) = 2 ∧
    (run_postgres (Config.mk "postgres" "d" "q") "f1" "f2"
      (PgEnv.mk (some " ") (some "") (fun _ => some Json.null) true true (some []))).2 =
      [DbEvent.connect "d", DbEvent.prepare "q", DbEvent.query none none] :=
  ⟨c5_document_loader.1 (fun _ => some Json.null) "f" " \n\t" (by decide),
   c5_document_loader.2.1 (fun _ => some Json.null) "f" "null" Json.null (by decide) rfl,
   c5_document_loader.2.2.1 (fun _ => none) "f" "oops" (by decide) rfl,
   c5_document_loader.2.2.2.1 (Config.mk "postgres" "d" "q") "f1" "f2"
     (PgEnv.mk (some "oops") (some "") (fun _ => none) true true (some []))
     "oops" (Or.inl rfl) rfl (by decide) rfl,
   c5_document_loader.2.2.2.2 (Config.mk "postgres" "d" "q") "f1" "f2"
     (PgEnv.mk (some " ") (some "") (fun _ => some Json.null) true true (some []))
     " " "" [] rfl rfl (by decide) (by decide) rfl rfl rfl⟩

/-- A successful run carries an exit code of 0 or 1 (it came from the
mapper). -/
theorem run_ok_code (cfg : Config) (f1 f2 : String) (env : PgEnv) (r : String × Int)
    (h : (run cfg f1 f2 env).1 = Except.ok r) : r.2 = 0 ∨ r.2 = 1 := by
  unfold run at h
  by_cases he : cfg.engine = "postgres" ∨ cfg.engine = "pg"
  · rw [if_pos he] at h
    rcases hq : run_postgres cfg f1 f2 env with ⟨res, evs⟩
    rw [hq] at h
    cases res with
    | error e => simp at h
    | ok q =>
      simp at h
      rw [← h]
      exact mapResult_exit_zero_or_one q
  · rw [if_neg he] at h
    simp at h

/-- A successful full run carries an exit code of 0 or 1. -/
theorem runFull_ok_code (cfgLoad : Except RunError Config) (f1 f2 : String)
    (env : PgEnv) (r : String × Int)
    (h : (runFull cfgLoad f1 f2 env).1 = Except.ok r) : r.2 = 0 ∨ r.2 = 1 := by
  unfold runFull at h
  cases cfgLoad with
  | error e => simp at h
  | ok cfg => exact run_ok_code cfg f1 f2 env r h

/-- Appending cannot erase a non-empty prefix. -/
theorem append_len_ne (a b : String) (h : a.length ≠ 0) : (a ++ b).length ≠ 0 := by
  rw [String.length_append]
  omega

/-- Every fatal error message is non-empty. -/
theorem errMessage_ne_empty (e : RunError) : (errMessage e).length ≠ 0 := by
  cases e with
  | UnsupportedEngine s => exact append_len_ne _ _ (append_len_ne _ _ (by decide))
  | InputIOError l p =>
      exact append_len_ne _ _ (append_len_ne _ _ (append_len_ne _ _ (by decide)))
  | InputParseError p => exact append_len_ne _ _ (by decide)
  | ConnectionError d => exact append_len_ne _ _ (by decide)
  | StatementPrepareError => decide
  | QueryExecutionError => decide
  | UnsupportedResultType => decide
  | ConfigReadError p => exact append_len_ne _ _ (by decide)
  | ConfigParseError p => exact append_len_ne _ _ (by decide)
  | ConfigNotFound => decide
  | ArgMissing w => exact append_len_ne _ _ (append_len_ne _ _ (by decide))

/-- C6: every run exits with 0, 1 or 2; every fatal error exits 2 with its
non-empty human-readable message on the error stream; every successful run
exits with the mapper code, which is 0 or 1 and never 2. -/
theorem c6_exit_codes (cfgLoad : Except RunError Config) (f1 f2 : String) (env : PgEnv) :
    (mainExit cfgLoad f1 f2 env = 0 ∨ mainExit cfgLoad f1 f2 env = 1 ∨
      mainExit cfgLoad f1 f2 env = 2) ∧
    (∀ e, (runFull cfgLoad f1 f2 env).1 = Except.error e →
      mainExit cfgLoad f1 f2 env = 2 ∧
      mainStderr cfgLoad f1 f2 env = errMessage e ∧ (errMessage e).length ≠ 0) ∧
    (∀ r, (runFull cfgLoad f1 f2 env).1 = Except.ok r →
      (r.2 = 0 ∨ r.2 = 1) ∧ mainExit cfgLoad f1 f2 env = r.2) := by
  refine ⟨?_, fun e he => ?_, fun r hr => ?_⟩
  · rcases h : (runFull cfgLoad f1 f2 env).1 with e | r
    · right; right; simp [mainExit, h]
    · rcases runFull_ok_code cfgLoad f1 f2 env r h with h0 | h1
      · left; simp [mainExit, h, h0]
      · right; left; simp [mainExit, h, h1]
  · exact ⟨by simp [mainExit, he], by simp [mainStderr, he], errMessage_ne_empty e⟩
  · exact ⟨runFull_ok_code cfgLoad f1 f2 env r hr, by simp [mainExit, hr]⟩

/-- Witness for C6: a concrete failed run (config never found) exits 2 with
its message on the error stream, and a concrete successful run (empty
result set) exits with the mapper code 0. -/
theorem c6_witness :
    (mainExit (Except.error RunError.ConfigNotFound) "a" "b"
        (PgEnv.mk none none (fun _ => none) false false none) = 2 ∧
      mainStderr (Except.error RunError.ConfigNotFound) "a" "b"
        (PgEnv.mk none none (fun _ => none) false false none) =
        errMessage RunError.ConfigNotFound ∧
      (errMessage RunError.ConfigNotFound).length ≠ 0) ∧
    ((("", (0 : Int)).2 = 0 ∨ ("", (0 : Int)).2 = 1) ∧
      mainExit (Except.ok (Config.mk "postgres" "d" "q")) "f1" "f2"
        (PgEnv.mk (some "") (some "") (fun _ => none) true true (some [])) =
        ("", (0 : Int)).2) :=
  ⟨(c6_exit_codes (Except.error RunError.ConfigNotFound) "a" "b"
      (PgEnv.mk none none (fun _ => none) false false none)).2.1
      RunError.ConfigNotFound rfl,
   (c6_exit_codes (Except.ok (Config.mk "postgres" "d" "q")) "f1" "f2"
      (PgEnv.mk (some "") (some "") (fun _ => none) true true (some []))).2.2
      ("", (0 : Int)) rfl⟩

/-- C7: whenever the run reaches the query and it returns zero rows, the
run succeeds with empty stdout and exit code 0, whatever the two input
documents contained. -/
theorem c7_zero_rows (cfg : Config) (f1 f2 : String) (env : PgEnv)
    (a b : String) (pa pb : Option Json)
    (heng : cfg.engine = "postgres" ∨ cfg.engine = "pg")
    (ha : env.readA = some a) (hb : env.readB = some b)
    (hla : loadDocument env.parse f1 a = Except.ok pa)
    (hlb : loadDocument env.parse f2 b = Except.ok pb)
    (hc : env.connectOk = true) (hp : env.prepareOk = true)
    (hq : env.queryRes = some []) :
    (run cfg f1 f2 env).1 = Except.ok ("", 0) ∧
    mainExit (Except.ok cfg) f1 f2 env = 0 ∧
    mainStdout (Except.ok cfg) f1 f2 env = "" := by
  have h1 : (run cfg f1 f2 env).1 = Except.ok ("", 0) := by
    unfold run run_postgres
    simp [heng, ha, hb, hla, hlb, hc, hp, hq, classify, mapResult]
  exact ⟨h1, by simp [mainExit, runFull, h1], by simp [mainStdout, runFull, h1]⟩

/-- Witness for C7: a concrete run (first file holding 1, second file
whitespace) whose query returns zero rows exits 0 with empty stdout. -/
theorem c7_witness :
    (run (Config.mk "pg" "d" "q") "f1" "f2"
      (PgEnv.mk (some "1") (some " ") (fun _ => some Json.null) true true (some []))).1 =
      Except.ok ("", 0) ∧
    mainExit (Except.ok (Config.mk "pg" "d" "q")) "f1" "f2"
      (PgEnv.mk (some "1") (some " ") (fun _ => some Json.null) true true (some [])) = 0 ∧
    mainStdout (Except.ok (Config.mk "pg" "d" "q")) "f1" "f2"
      (PgEnv.mk (some "1") (some " ") (fun _ => some Json.null) true true (some [])) = "" :=
  c7_zero_rows (Config.mk "pg" "d" "q") "f1" "f2"
    (PgEnv.mk (some "1") (some " ") (fun _ => some Json.null) true true (some []))
    "1" " " (some Json.null) none (Or.inr rfl) rfl rfl rfl rfl rfl rfl rfl

/-- C8: an unrecognized engine identifier fails as unsupported with exit
code 2 and an empty database event trace — no connection is attempted. -/
theorem c8_unsupported_engine (cfg : Config) (f1 f2 : String) (env : PgEnv)
    (h1 : cfg.engine ≠ "postgres") (h2 : cfg.engine ≠ "pg") :
    (run cfg f1 f2 env).1 = Except.error (RunError.UnsupportedEngine cfg.engine) ∧
    (run cfg f1 f2 env).2 = [] ∧
    mainExit (Except.ok cfg) f1 f2 env = 2 := by
  have hne : ¬(cfg.engine = "postgres" ∨ cfg.engine = "pg") := by
    intro hor
    cases hor with
    | inl h => exact h1 h
    | inr h => exact h2 h
  refine ⟨?_, ?_, ?_⟩ <;> simp [run, mainExit, runFull, hne]

/-- Witness for C8: the engine mysql is rejected with exit code 2 and no
database events. -/
theorem c8_witness :
    (run (Config.mk "mysql" "d" "q") "f1" "f2"
      (PgEnv.mk (some "") (some "") (fun _ => none) true true (some []))).1 =
      Except.error (RunError.UnsupportedEngine "mysql") ∧
    (run (Config.mk "mysql" "d" "q") "f1" "f2"
      (PgEnv.mk (some "") (some "") (fun _ => none) true true (some []))).2 = [] ∧
    mainExit (Except.ok (Config.mk "mysql" "d" "q")) "f1" "f2"
      (PgEnv.mk (some "") (some "") (fun _ => none) true true (some [])) = 2 :=
  c8_unsupported_engine (Config.mk "mysql" "d" "q") "f1" "f2"
    (PgEnv.mk (some "") (some "") (fun _ => none) true true (some []))
    (by decide) (by decide)

/-- C9: exactly the engine strings postgres and pg select the postgres
path (the run is the mapped postgres outcome, and pg behaves as postgres);
every other engine string is rejected as unsupported. -/
theorem c9_engine_dispatch (cfg : Config) (f1 f2 : String) (env : PgEnv) :
    ((cfg.engine = "postgres" ∨ cfg.engine = "pg") →
      run cfg f1 f2 env =
        ((run_postgres cfg f1 f2 env).1.map mapResult,
         (run_postgres cfg f1 f2 env).2)) ∧
    (cfg.engine ≠ "postgres" → cfg.engine ≠ "pg" →
      run cfg f1 f2 env = (Except.error (RunError.UnsupportedEngine cfg.engine), [])) ∧
    (∀ d s, run (Config.mk "pg" d s) f1 f2 env =
      run (Config.mk "postgres" d s) f1 f2 env) := by
  refine ⟨fun h => ?_, fun h1 h2 => ?_, fun d s => rfl⟩
  · unfold run
    rw [if_pos h]
    rcases hq : run_postgres cfg f1 f2 env with ⟨res, evs⟩
    cases res <;> simp [Except.map]
  · have hne : ¬(cfg.engine = "postgres" ∨ cfg.engine = "pg") := by
      intro hor
      cases hor with
      | inl h => exact h1 h
      | inr h => exact h2 h
    unfold run
    rw [if_neg hne]

/-- Witness for C9: with a concrete environment, postgres selects the
postgres path, mysql is rejected, and pg behaves exactly as postgres. -/
theorem c9_witness :
    run (Config.mk "postgres" "d" "q") "f1" "f2"
      (PgEnv.mk none none (fun _ => none) false false none) =
      ((run_postgres (Config.mk "postgres" "d" "q") "f1" "f2"
          (PgEnv.mk none none (fun _ => none) false false none)).1.map mapResult,
       (run_postgres (Config.mk "postgres" "d" "q") "f1" "f2"
          (PgEnv.mk none none (fun _ => none) false false none)).2) ∧
    run (Config.mk "mysql" "d" "q") "f1" "f2"
      (PgEnv.mk none none (fun _ => none) false false none) =
      (Except.error (RunError.UnsupportedEngine "mysql"), []) ∧
    run (Config.mk "pg" "d" "q") "f1" "f2"
      (PgEnv.mk none none (fun _ => none) false false none) =
      run (Config.mk "postgres" "d" "q") "f1" "f2"
        (PgEnv.mk none none (fun _ => none) false false none) :=
  ⟨(c9_engine_dispatch (Config.mk "postgres" "d" "q") "f1" "f2"
      (PgEnv.mk none none (fun _ => none) false false none)).1 (Or.inl rfl),
   (c9_engine_dispatch (Config.mk "mysql" "d" "q") "f1" "f2"
      (PgEnv.mk none none (fun _ => none) false false none)).2.1 (by decide) (by decide),
   (c9_engine_dispatch (Config.mk "pg" "d" "q") "f1" "f2"
      (PgEnv.mk none none (fun _ => none) false false none)).2.2 "d" "q"⟩

end JdSql
